import Mathlib

set_option maxRecDepth 8000

namespace AgLcd

/-- Observable I/O of the driver: a digital-line transition performed on a
bound pin slot, or a busy-wait of the given number of microseconds.  These
are the two collaborator capabilities the driver consumes (an output pin and
a microsecond delay), so they are exactly the I/O the code can perform. -/
inductive Event where
  | setPin : Nat → Bool → Event
  | delayUs : Nat → Event
  deriving DecidableEq, Repr

/-- Error codes, from src/errors.rs (enum Error). -/
inductive Error where
  | NoPinRS
  | NoPinEN
  | NoPinRW
  | NoPinD0
  | NoPinD1
  | NoPinD2
  | NoPinD3
  | NoPinD4
  | NoPinD5
  | NoPinD6
  | NoPinD7
  | None
  | InvalidMode
  | InvalidCode
  deriving DecidableEq, Repr

/-- Conversion of a pin index to an error code, from src/errors.rs
(impl From u8 for Error). -/
def Error.fromU8 : Nat → Error
  | 0 => Error.NoPinRS
  | 1 => Error.NoPinEN
  | 2 => Error.NoPinRW
  | 3 => Error.NoPinD0
  | 4 => Error.NoPinD1
  | 5 => Error.NoPinD2
  | 6 => Error.NoPinD3
  | 7 => Error.NoPinD4
  | 8 => Error.NoPinD5
  | 9 => Error.NoPinD6
  | 10 => Error.NoPinD7
  | 11 => Error.None
  | 12 => Error.InvalidMode
  | _ => Error.InvalidCode

/-- Text direction flag (enum Layout). -/
inductive Layout where
  | RightToLeft
  | LeftToRight
  deriving DecidableEq, Repr

/-- Numeric value of a Layout flag (repr u8 values of enum Layout). -/
def Layout.val : Layout → Nat
  | Layout.RightToLeft => 0x00
  | Layout.LeftToRight => 0x02

/-- Autoscroll flag (enum AutoScroll). -/
inductive AutoScroll where
  | On
  | Off
  deriving DecidableEq, Repr

/-- Numeric value of an AutoScroll flag. -/
def AutoScroll.val : AutoScroll → Nat
  | AutoScroll.On => 0x01
  | AutoScroll.Off => 0x00

/-- Display on and off flag (enum Display). -/
inductive Display where
  | On
  | Off
  deriving DecidableEq, Repr

/-- Numeric value of a Display flag. -/
def Display.val : Display → Nat
  | Display.On => 0x04
  | Display.Off => 0x00

/-- Cursor on and off flag (enum Cursor). -/
inductive Cursor where
  | On
  | Off
  deriving DecidableEq, Repr

/-- Numeric value of a Cursor flag. -/
def Cursor.val : Cursor → Nat
  | Cursor.On => 0x02
  | Cursor.Off => 0x00

/-- Blink on and off flag (enum Blink). -/
inductive Blink where
  | On
  | Off
  deriving DecidableEq, Repr

/-- Numeric value of a Blink flag. -/
def Blink.val : Blink → Nat
  | Blink.On => 0x01
  | Blink.Off => 0x00

/-- Bus mode flag (enum Mode). -/
inductive Mode where
  | EightBits
  | FourBits
  deriving DecidableEq, Repr

/-- Numeric value of a Mode flag. -/
def Mode.val : Mode → Nat
  | Mode.EightBits => 0x10
  | Mode.FourBits => 0x00

/-- Line count flag (enum Lines).  FourLines reuses the character-size bit
position, which is why its value is 0x0C rather than a single bit. -/
inductive Lines where
  | FourLines
  | TwoLines
  | OneLine
  deriving DecidableEq, Repr

/-- Numeric value of a Lines flag. -/
def Lines.val : Lines → Nat
  | Lines.FourLines => 0x0C
  | Lines.TwoLines => 0x08
  | Lines.OneLine => 0x00

/-- Character size flag (enum Size). -/
inductive Size where
  | Dots5x10
  | Dots5x8
  deriving DecidableEq, Repr

/-- Numeric value of a Size flag. -/
def Size.val : Size → Nat
  | Size.Dots5x10 => 0x04
  | Size.Dots5x8 => 0x00

/-- Command opcodes (enum Command in src/display.rs). -/
def ClearDisplay : Nat := 0x01

/-- Return-home opcode. -/
def ReturnHome : Nat := 0x02

/-- Entry-mode-set opcode. -/
def SetDisplayMode : Nat := 0x04

/-- Display-control opcode. -/
def SetDisplayCtrl : Nat := 0x08

/-- Cursor-shift opcode. -/
def CursorShift : Nat := 0x10

/-- Function-set opcode. -/
def SetDisplayFunc : Nat := 0x20

/-- Set-CGRAM-address opcode. -/
def SetCGramAddr : Nat := 0x40

/-- Set-DDRAM-address opcode. -/
def SetDDRAMAddr : Nat := 0x80

/-- Default column count (const DEFAULT_COLS). -/
def DEFAULT_COLS : Nat := 16

/-- Default function register (const DEFAULT_DISPLAY_FUNC). -/
def DEFAULT_DISPLAY_FUNC : Nat :=
  Mode.val Mode.FourBits ||| Lines.val Lines.OneLine ||| Size.val Size.Dots5x8

/-- Default control register (const DEFAULT_DISPLAY_CTRL). -/
def DEFAULT_DISPLAY_CTRL : Nat :=
  Display.val Display.On ||| Cursor.val Cursor.Off ||| Blink.val Blink.Off

/-- Default entry-mode register (const DEFAULT_DISPLAY_MODE). -/
def DEFAULT_DISPLAY_MODE : Nat :=
  Layout.val Layout.LeftToRight ||| AutoScroll.val AutoScroll.Off

/-- Command settle delay in microseconds (const CMD_DELAY). -/
def CMD_DELAY : Nat := 3500

/-- Per-character write delay in microseconds (const CHR_DELAY). -/
def CHR_DELAY : Nat := 450

/-- Pin slot index of RS. -/
def RS : Nat := 0

/-- Pin slot index of EN. -/
def EN : Nat := 1

/-- Pin slot index of RW. -/
def RW : Nat := 2

/-- Pin slot index of D0. -/
def D0 : Nat := 3

/-- Pin slot index of D1. -/
def D1 : Nat := 4

/-- Pin slot index of D2. -/
def D2 : Nat := 5

/-- Pin slot index of D3. -/
def D3 : Nat := 6

/-- Pin slot index of D4. -/
def D4 : Nat := 7

/-- Pin slot index of D5. -/
def D5 : Nat := 8

/-- Pin slot index of D6. -/
def D6 : Nat := 9

/-- Pin slot index of D7. -/
def D7 : Nat := 10

/-- Pin slot index of the backlight line. -/
def A : Nat := 11

/-- State of an LcdDisplay (struct LcdDisplay).  A pin slot is represented by
whether a pin is bound there (Option pin in the source; the pin itself has no
observable state beyond the transitions recorded in the trace).  Registers
are u8 values kept as Nat; every register write in the source stays below
256. -/
structure Lcd where
  pins : List Bool
  display_func : Nat
  display_mode : Nat
  display_ctrl : Nat
  offsets : List Nat
  code : Error
  deriving DecidableEq, Repr

/-- Sequencing helper: run the continuation on the state of the first result
and concatenate the emitted traces.  Used to transliterate the sequences of
statements of the source methods. -/
def seqStep (a : Lcd × List Event) (f : Lcd → Lcd × List Event) : Lcd × List Event :=
  let r := f a.1
  (r.1, a.2 ++ r.2)

/-- LcdDisplay::set.  Writes a pin if its slot is bound (the pin write itself
is infallible per the design, section 7 of the spec); an unbound slot records
the sticky error code for that index and performs no transition. -/
def set (s : Lcd) (index : Nat) (value : Bool) : Lcd × List Event :=
  if s.pins.getD index false then
    (s, [Event.setPin index value])
  else
    ({ s with code := Error.fromU8 index }, [])

/-- LcdDisplay::exists. -/
def exists_ (s : Lcd) (index : Nat) : Bool :=
  s.pins.getD index false

/-- DelayUs::delay_us, the busy-wait capability. -/
def delay_us (s : Lcd) (us : Nat) : Lcd × List Event :=
  (s, [Event.delayUs us])

/-- LcdDisplay::mode. -/
def mode (s : Lcd) : Mode :=
  if s.display_func &&& Mode.val Mode.EightBits == 0 then
    Mode.FourBits
  else
    Mode.EightBits

/-- LcdDisplay::pulse. -/
def pulse (s : Lcd) : Lcd × List Event :=
  seqStep (set s EN true) (fun t => set t EN false)

/-- LcdDisplay::update.  Presents either the bottom nibble (four-bit mode) or
the whole byte (eight-bit mode) on the data lines and pulses enable. -/
def update (s : Lcd) (byte : Nat) : Lcd × List Event :=
  let a := set s EN false
  let b :=
    match mode a.1 with
    | Mode.FourBits =>
        seqStep (seqStep (seqStep (seqStep a
          (fun t => set t D7 (decide ((byte >>> 3) &&& 1 > 0))))
          (fun t => set t D6 (decide ((byte >>> 2) &&& 1 > 0))))
          (fun t => set t D5 (decide ((byte >>> 1) &&& 1 > 0))))
          (fun t => set t D4 (decide ((byte >>> 0) &&& 1 > 0)))
    | Mode.EightBits =>
        seqStep (seqStep (seqStep (seqStep (seqStep (seqStep (seqStep (seqStep a
          (fun t => set t D7 (decide ((byte >>> 7) &&& 1 > 0))))
          (fun t => set t D6 (decide ((byte >>> 6) &&& 1 > 0))))
          (fun t => set t D5 (decide ((byte >>> 5) &&& 1 > 0))))
          (fun t => set t D4 (decide ((byte >>> 4) &&& 1 > 0))))
          (fun t => set t D3 (decide ((byte >>> 3) &&& 1 > 0))))
          (fun t => set t D2 (decide ((byte >>> 2) &&& 1 > 0))))
          (fun t => set t D1 (decide ((byte >>> 1) &&& 1 > 0))))
          (fun t => set t D0 (decide ((byte >>> 0) &&& 1 > 0)))
  seqStep b (fun t => pulse t)

/-- LcdDisplay::send.  RS selects data (true) or command (false); RW is
forced low when bound; four-bit mode sends the high nibble then the low
nibble, eight-bit mode sends the byte once. -/
def send (s : Lcd) (byte : Nat) (m : Bool) : Lcd × List Event :=
  let a := set s RS m
  let b := if exists_ a.1 RW then seqStep a (fun t => set t RW false) else a
  match mode b.1 with
  | Mode.FourBits =>
      seqStep (seqStep b (fun t => update t (byte >>> 4))) (fun t => update t byte)
  | Mode.EightBits =>
      seqStep b (fun t => update t byte)

/-- LcdDisplay::command. -/
def command (s : Lcd) (value : Nat) : Lcd × List Event :=
  send s value false

/-- LcdDisplay::write. -/
def write (s : Lcd) (value : Nat) : Lcd × List Event :=
  seqStep (delay_us s CHR_DELAY) (fun t => send t value true)

/-- LcdDisplay::new.  RS and EN are bound at construction; registers and the
row-offset table take their defaults. -/
def new : Lcd :=
  { pins := [true, true, false, false, false, false, false, false, false, false, false, false]
    display_func := DEFAULT_DISPLAY_FUNC
    display_mode := DEFAULT_DISPLAY_MODE
    display_ctrl := DEFAULT_DISPLAY_CTRL
    offsets := [0x00, 0x40, 0x00 + DEFAULT_COLS, 0x40 + DEFAULT_COLS]
    code := Error.None }

/-- LcdDisplay::with_cols.  The column count is clamped to the range 0..31
and rows two and three of the offset table are recomputed. -/
def with_cols (s : Lcd) (cols : Nat) : Lcd × List Event :=
  (let cols := min (max cols 0) 31
   { s with offsets := (s.offsets.set 2 (0x00 + cols)).set 3 (0x40 + cols) }, [])

/-- LcdDisplay::with_half_bus.  Clears the bus-width bit and binds D4 to D7
(the method takes four owned pins, so all four slots become bound). -/
def with_half_bus (s : Lcd) : Lcd × List Event :=
  ({ s with
      display_func := s.display_func &&& (0xFF ^^^ Mode.val Mode.EightBits)
      pins := ((((s.pins.set D4 true).set D5 true).set D6 true).set D7 true) }, [])

/-- LcdDisplay::with_full_bus.  Sets the bus-width bit and binds D0 to D7. -/
def with_full_bus (s : Lcd) : Lcd × List Event :=
  ({ s with
      display_func := s.display_func ||| Mode.val Mode.EightBits
      pins := ((((((((s.pins.set D0 true).set D1 true).set D2 true).set D3 true).set
        D4 true).set D5 true).set D6 true).set D7 true) }, [])

/-- LcdDisplay::with_rw. -/
def with_rw (s : Lcd) : Lcd × List Event :=
  ({ s with pins := s.pins.set RW true }, [])

/-- LcdDisplay::with_size. -/
def with_size (s : Lcd) (value : Size) : Lcd × List Event :=
  (match value with
   | Size.Dots5x10 => { s with display_func := s.display_func ||| Size.val Size.Dots5x10 }
   | Size.Dots5x8 =>
       { s with display_func := s.display_func &&& (0xFF ^^^ Size.val Size.Dots5x10) }, [])

/-- LcdDisplay::with_lines. -/
def with_lines (s : Lcd) (value : Lines) : Lcd × List Event :=
  (match value with
   | Lines.FourLines => { s with display_func := s.display_func ||| Lines.val Lines.FourLines }
   | Lines.TwoLines => { s with display_func := s.display_func ||| Lines.val Lines.TwoLines }
   | Lines.OneLine =>
       { s with display_func := s.display_func &&& (0xFF ^^^ Lines.val Lines.TwoLines) }, [])

/-- LcdDisplay::with_layout. -/
def with_layout (s : Lcd) (value : Layout) : Lcd × List Event :=
  (match value with
   | Layout.LeftToRight => { s with display_mode := s.display_mode ||| Layout.val Layout.LeftToRight }
   | Layout.RightToLeft =>
       { s with display_mode := s.display_mode &&& (0xFF ^^^ Layout.val Layout.LeftToRight) }, [])

/-- LcdDisplay::with_display. -/
def with_display (s : Lcd) (value : Display) : Lcd × List Event :=
  (match value with
   | Display.On => { s with display_ctrl := s.display_ctrl ||| Display.val Display.On }
   | Display.Off =>
       { s with display_ctrl := s.display_ctrl &&& (0xFF ^^^ Display.val Display.On) }, [])

/-- LcdDisplay::with_cursor. -/
def with_cursor (s : Lcd) (value : Cursor) : Lcd × List Event :=
  (match value with
   | Cursor.On => { s with display_ctrl := s.display_ctrl ||| Cursor.val Cursor.On }
   | Cursor.Off =>
       { s with display_ctrl := s.display_ctrl &&& (0xFF ^^^ Cursor.val Cursor.On) }, [])

/-- LcdDisplay::with_blink. -/
def with_blink (s : Lcd) (value : Blink) : Lcd × List Event :=
  (match value with
   | Blink.On => { s with display_ctrl := s.display_ctrl ||| Blink.val Blink.On }
   | Blink.Off =>
       { s with display_ctrl := s.display_ctrl &&& (0xFF ^^^ Blink.val Blink.On) }, [])

/-- LcdDisplay::with_backlight. -/
def with_backlight (s : Lcd) : Lcd × List Event :=
  ({ s with pins := s.pins.set A true }, [])

/-- LcdDisplay::with_autoscroll. -/
def with_autoscroll (s : Lcd) (value : AutoScroll) : Lcd × List Event :=
  (match value with
   | AutoScroll.On => { s with display_mode := s.display_mode ||| AutoScroll.val AutoScroll.On }
   | AutoScroll.Off =>
       { s with display_mode := s.display_mode &&& (0xFF ^^^ AutoScroll.val AutoScroll.On) }, [])

/-- LcdDisplay::lines. -/
def lines (s : Lcd) : Lines :=
  let flag_bits := s.display_func &&& 0x0C
  if flag_bits == Lines.val Lines.FourLines then
    Lines.FourLines
  else if flag_bits == Lines.val Lines.TwoLines then
    Lines.TwoLines
  else
    Lines.OneLine

/-- LcdDisplay::layout. -/
def layout (s : Lcd) : Layout :=
  if s.display_mode &&& Layout.val Layout.LeftToRight == 0 then
    Layout.RightToLeft
  else
    Layout.LeftToRight

/-- LcdDisplay::display. -/
def display (s : Lcd) : Display :=
  if s.display_ctrl &&& Display.val Display.On == 0 then
    Display.Off
  else
    Display.On

/-- LcdDisplay::cursor. -/
def cursor (s : Lcd) : Cursor :=
  if s.display_ctrl &&& Cursor.val Cursor.On == 0 then
    Cursor.Off
  else
    Cursor.On

/-- LcdDisplay::blink. -/
def blink (s : Lcd) : Blink :=
  if s.display_ctrl &&& Blink.val Blink.On == 0 then
    Blink.Off
  else
    Blink.On

/-- LcdDisplay::autoscroll. -/
def autoscroll (s : Lcd) : AutoScroll :=
  if s.display_mode &&& AutoScroll.val AutoScroll.On == 0 then
    AutoScroll.Off
  else
    AutoScroll.On

/-- LcdDisplay::error. -/
def error (s : Lcd) : Error :=
  s.code

/-- LcdDisplay::set_display.  Sets or clears the display bit of the control
register and pushes the whole register, opcode included, as one command. -/
def set_display (s : Lcd) (d : Display) : Lcd × List Event :=
  let s1 :=
    match d with
    | Display.On => { s with display_ctrl := s.display_ctrl ||| Display.val Display.On }
    | Display.Off => { s with display_ctrl := s.display_ctrl &&& (0xFF ^^^ Display.val Display.On) }
  seqStep (command s1 (SetDisplayCtrl ||| s1.display_ctrl)) (fun t => delay_us t CMD_DELAY)

/-- LcdDisplay::set_cursor. -/
def set_cursor (s : Lcd) (c : Cursor) : Lcd × List Event :=
  let s1 :=
    match c with
    | Cursor.On => { s with display_ctrl := s.display_ctrl ||| Cursor.val Cursor.On }
    | Cursor.Off => { s with display_ctrl := s.display_ctrl &&& (0xFF ^^^ Cursor.val Cursor.On) }
  seqStep (command s1 (SetDisplayCtrl ||| s1.display_ctrl)) (fun t => delay_us t CMD_DELAY)

/-- LcdDisplay::set_blink. -/
def set_blink (s : Lcd) (b : Blink) : Lcd × List Event :=
  let s1 :=
    match b with
    | Blink.On => { s with display_ctrl := s.display_ctrl ||| Blink.val Blink.On }
    | Blink.Off => { s with display_ctrl := s.display_ctrl &&& (0xFF ^^^ Blink.val Blink.On) }
  seqStep (command s1 (SetDisplayCtrl ||| s1.display_ctrl)) (fun t => delay_us t CMD_DELAY)

/-- LcdDisplay::set_autoscroll. -/
def set_autoscroll (s : Lcd) (a : AutoScroll) : Lcd × List Event :=
  let s1 :=
    match a with
    | AutoScroll.On => { s with display_mode := s.display_mode ||| AutoScroll.val AutoScroll.On }
    | AutoScroll.Off =>
        { s with display_mode := s.display_mode &&& (0xFF ^^^ AutoScroll.val AutoScroll.On) }
  seqStep (command s1 (SetDisplayMode ||| s1.display_mode)) (fun t => delay_us t CMD_DELAY)

/-- LcdDisplay::display_on. -/
def display_on (s : Lcd) : Lcd × List Event :=
  set_display s Display.On

/-- LcdDisplay::display_off. -/
def display_off (s : Lcd) : Lcd × List Event :=
  set_display s Display.Off

/-- One iteration of the first loop body of LcdDisplay::with_reliable_init:
delay, display off, delay, display on. -/
def reliable_off_on (s : Lcd) (d : Nat) : Lcd × List Event :=
  seqStep (seqStep (seqStep (delay_us s d) (fun t => display_off t))
    (fun t => delay_us t d)) (fun t => display_on t)

/-- One iteration of the second loop body of LcdDisplay::with_reliable_init:
delay, display on, delay, display off. -/
def reliable_on_off (s : Lcd) (d : Nat) : Lcd × List Event :=
  seqStep (seqStep (seqStep (delay_us s d) (fun t => display_on t))
    (fun t => delay_us t d)) (fun t => display_off t)

/-- LcdDisplay::with_reliable_init.  Toggles the display off and on (or on
and off, when the control register is not exactly the display-on value)
three times with the caller-specified delay between toggles. -/
def with_reliable_init (s : Lcd) (delay_toggle : Nat) : Lcd × List Event :=
  if s.display_ctrl == Display.val Display.On then
    seqStep (seqStep (reliable_off_on s delay_toggle)
      (fun t => reliable_off_on t delay_toggle)) (fun t => reliable_off_on t delay_toggle)
  else
    seqStep (seqStep (reliable_on_off s delay_toggle)
      (fun t => reliable_on_off t delay_toggle)) (fun t => reliable_on_off t delay_toggle)

/-- LcdDisplay::clear. -/
def clear (s : Lcd) : Lcd × List Event :=
  seqStep (command s ClearDisplay) (fun t => delay_us t CMD_DELAY)

/-- LcdDisplay::home. -/
def home (s : Lcd) : Lcd × List Event :=
  seqStep (command s ReturnHome) (fun t => delay_us t CMD_DELAY)

/-- LcdDisplay::validate, verbatim from the source: the error code is set to
InvalidMode when the disjunction of the data-pin existence checks for the
active bus width holds. -/
def validate (s : Lcd) : Lcd :=
  if (match mode s with
      | Mode.FourBits => exists_ s D4 || exists_ s D5 || exists_ s D6 || exists_ s D7
      | Mode.EightBits =>
          exists_ s D0 || exists_ s D1 || exists_ s D2 || exists_ s D3 ||
          exists_ s D4 || exists_ s D5 || exists_ s D6 || exists_ s D7) then
    { s with code := Error.InvalidMode }
  else
    s

/-- LcdDisplay::build: power-up settle delay, force RS and EN (and RW when
bound) low, the bus-width handshake, the three register commits, clear, home,
and finally validate. -/
def build (s : Lcd) : Lcd × List Event :=
  let a := delay_us s 50000
  let b := seqStep a (fun t => set t RS false)
  let c := seqStep b (fun t => set t EN false)
  let d := if exists_ c.1 RW then seqStep c (fun t => set t RW false) else c
  let e :=
    match mode d.1 with
    | Mode.FourBits =>
        seqStep (seqStep (seqStep (seqStep (seqStep (seqStep (seqStep d
          (fun t => update t 0x03)) (fun t => delay_us t 4500))
          (fun t => update t 0x03)) (fun t => delay_us t 4500))
          (fun t => update t 0x03)) (fun t => delay_us t 150))
          (fun t => update t 0x02)
    | Mode.EightBits =>
        seqStep (seqStep (seqStep (seqStep d
          (fun t => command t (SetDisplayFunc ||| t.display_func)))
          (fun t => delay_us t 4500))
          (fun t => command t (SetDisplayFunc ||| t.display_func)))
          (fun t => delay_us t 150)
        |> (fun r => seqStep r (fun t => command t (SetDisplayFunc ||| t.display_func)))
  let f := seqStep e (fun t => command t (SetDisplayFunc ||| t.display_func))
  let g := seqStep f (fun t => delay_us t CMD_DELAY)
  let h := seqStep g (fun t => command t (SetDisplayCtrl ||| t.display_ctrl))
  let i := seqStep h (fun t => delay_us t CMD_DELAY)
  let j := seqStep i (fun t => command t (SetDisplayMode ||| t.display_mode))
  let k := seqStep j (fun t => delay_us t CMD_DELAY)
  let l := seqStep k (fun t => clear t)
  let m := seqStep l (fun t => home t)
  (validate m.1, m.2)

/-- Line count used by LcdDisplay::set_position (the match on lines). -/
def num_lines (s : Lcd) : Nat :=
  match lines s with
  | Lines.FourLines => 4
  | Lines.TwoLines => 2
  | Lines.OneLine => 1

/-- LcdDisplay::set_position.  The row is clamped first against the absolute
maximum of four lines, then against the configured line count; the DDRAM
address is the column plus the clamped row offset in wrapping u8 arithmetic,
ORed into the set-DDRAM-address opcode. -/
def set_position (s : Lcd) (col row : Nat) : Lcd × List Event :=
  let max_lines := 4
  let row1 := if row ≥ max_lines then max_lines - 1 else row
  let row2 := if row1 ≥ num_lines s then num_lines s - 1 else row1
  let pos := (col + s.offsets.getD row2 0) % 256
  seqStep (command s (SetDDRAMAddr ||| pos)) (fun t => delay_us t CMD_DELAY)

/-- Standard four-bit configuration: a fresh builder with the half bus
bound (RS, EN, D4 to D7), all register defaults. -/
def halfInit : Lcd :=
  (with_half_bus new).1

/-- Standard eight-bit configuration: a fresh builder with the full bus
bound (RS, EN, D0 to D7), all register defaults. -/
def fullInit : Lcd :=
  (with_full_bus new).1

/-- Four-bit configuration with only three of the four data pins bound:
halfInit with the D7 slot emptied again.  The public API cannot produce this
state (with_half_bus always binds all four), so it is built directly. -/
def threePinInit : Lcd :=
  { halfInit with pins := halfInit.pins.set D7 false }

/-- Half-bus configuration switched to two-line mode. -/
def twoLineInit : Lcd :=
  (with_lines halfInit Lines.TwoLines).1

/-- The half-bus configuration after one set_display off call. -/
def halfInitOff : Lcd :=
  (set_display halfInit Display.Off).1

/-- Specification view: the pin-event trace of one four-bit update cycle
presenting the low four bits of n on D4 to D7, EN held low across the data
writes and then pulsed. -/
def cycle4 (n : Nat) : List Event :=
  [Event.setPin EN false,
   Event.setPin D7 (decide ((n >>> 3) &&& 1 > 0)),
   Event.setPin D6 (decide ((n >>> 2) &&& 1 > 0)),
   Event.setPin D5 (decide ((n >>> 1) &&& 1 > 0)),
   Event.setPin D4 (decide ((n >>> 0) &&& 1 > 0)),
   Event.setPin EN true,
   Event.setPin EN false]

/-- Specification view: the pin-event trace of one eight-bit update cycle
presenting all eight bits of n on D0 to D7. -/
def cycle8 (n : Nat) : List Event :=
  [Event.setPin EN false,
   Event.setPin D7 (decide ((n >>> 7) &&& 1 > 0)),
   Event.setPin D6 (decide ((n >>> 6) &&& 1 > 0)),
   Event.setPin D5 (decide ((n >>> 5) &&& 1 > 0)),
   Event.setPin D4 (decide ((n >>> 4) &&& 1 > 0)),
   Event.setPin D3 (decide ((n >>> 3) &&& 1 > 0)),
   Event.setPin D2 (decide ((n >>> 2) &&& 1 > 0)),
   Event.setPin D1 (decide ((n >>> 1) &&& 1 > 0)),
   Event.setPin D0 (decide ((n >>> 0) &&& 1 > 0)),
   Event.setPin EN true,
   Event.setPin EN false]

/-- Specification view: the trace of one controller command sent from state
s (one send with RS low) followed by the command settle delay. -/
def cmdTrace (s : Lcd) (b : Nat) : List Event :=
  (send s b false).2 ++ [Event.delayUs CMD_DELAY]

/-- Specification view: the microsecond values of the delay events of a
trace, in order. -/
def delaysOf (t : List Event) : List Nat :=
  t.filterMap (fun e => match e with
    | Event.delayUs n => some n
    | _ => none)

/-- Rewrite rule for set on a bound pin slot: the state is unchanged and one
pin transition is emitted. -/
lemma set_bound (s : Lcd) (i : Nat) (v : Bool) (h : s.pins.getD i false = true) :
    set s i v = (s, [Event.setPin i v]) := by
  simp only [set]
  rw [h]
  simp

/-- On a state whose relevant pins are all bound, a four-bit update leaves
the state unchanged and emits exactly one update cycle. -/
lemma update4_eq (s : Lcd) (x : Nat) (hm : mode s = Mode.FourBits)
    (hEN : s.pins.getD EN false = true) (hD4 : s.pins.getD D4 false = true)
    (hD5 : s.pins.getD D5 false = true) (hD6 : s.pins.getD D6 false = true)
    (hD7 : s.pins.getD D7 false = true) :
    update s x = (s, cycle4 x) := by
  have hEN2 := fun v => set_bound s EN v hEN
  have h7 := fun v => set_bound s D7 v hD7
  have h6 := fun v => set_bound s D6 v hD6
  have h5 := fun v => set_bound s D5 v hD5
  have h4 := fun v => set_bound s D4 v hD4
  simp [update, seqStep, pulse, hEN2, h7, h6, h5, h4, hm, cycle4]

/-- On a state whose relevant pins are all bound, an eight-bit update leaves
the state unchanged and emits exactly one update cycle. -/
lemma update8_eq (s : Lcd) (x : Nat) (hm : mode s = Mode.EightBits)
    (hEN : s.pins.getD EN false = true)
    (hD0 : s.pins.getD D0 false = true) (hD1 : s.pins.getD D1 false = true)
    (hD2 : s.pins.getD D2 false = true) (hD3 : s.pins.getD D3 false = true)
    (hD4 : s.pins.getD D4 false = true) (hD5 : s.pins.getD D5 false = true)
    (hD6 : s.pins.getD D6 false = true) (hD7 : s.pins.getD D7 false = true) :
    update s x = (s, cycle8 x) := by
  have hEN2 := fun v => set_bound s EN v hEN
  have h7 := fun v => set_bound s D7 v hD7
  have h6 := fun v => set_bound s D6 v hD6
  have h5 := fun v => set_bound s D5 v hD5
  have h4 := fun v => set_bound s D4 v hD4
  have h3 := fun v => set_bound s D3 v hD3
  have h2 := fun v => set_bound s D2 v hD2
  have h1 := fun v => set_bound s D1 v hD1
  have h0 := fun v => set_bound s D0 v hD0
  simp [update, seqStep, pulse, hEN2, h7, h6, h5, h4, h3, h2, h1, h0, hm, cycle8]

/-- On a four-bit state whose relevant pins are all bound, send leaves the
state unchanged and emits the RS write, the optional RW write, and exactly
two update cycles: high nibble first, then the raw byte (of which only the
low nibble reaches the pins). -/
lemma send4_eq (s : Lcd) (b : Nat) (m : Bool) (hm : mode s = Mode.FourBits)
    (hRS : s.pins.getD RS false = true) (hEN : s.pins.getD EN false = true)
    (hD4 : s.pins.getD D4 false = true) (hD5 : s.pins.getD D5 false = true)
    (hD6 : s.pins.getD D6 false = true) (hD7 : s.pins.getD D7 false = true) :
    send s b m = (s, Event.setPin RS m ::
      ((if exists_ s RW then [Event.setPin RW false] else []) ++
        (cycle4 (b >>> 4) ++ cycle4 b))) := by
  have hRS2 := set_bound s RS m hRS
  have hupd : ∀ x, update s x = (s, cycle4 x) := fun x =>
    update4_eq s x hm hEN hD4 hD5 hD6 hD7
  by_cases hRW : s.pins.getD RW false
  · have hex : exists_ s RW = true := hRW
    have hRWb := set_bound s RW false hRW
    simp [send, seqStep, hRS2, hex, hRWb, hm, hupd]
  · have hex : exists_ s RW = false := by simpa [exists_] using hRW
    simp [send, seqStep, hRS2, hex, hm, hupd]

/-- On an eight-bit state whose relevant pins are all bound, send leaves the
state unchanged and emits the RS write, the optional RW write, and exactly
one update cycle carrying the whole byte. -/
lemma send8_eq (s : Lcd) (b : Nat) (m : Bool) (hm : mode s = Mode.EightBits)
    (hRS : s.pins.getD RS false = true) (hEN : s.pins.getD EN false = true)
    (hD0 : s.pins.getD D0 false = true) (hD1 : s.pins.getD D1 false = true)
    (hD2 : s.pins.getD D2 false = true) (hD3 : s.pins.getD D3 false = true)
    (hD4 : s.pins.getD D4 false = true) (hD5 : s.pins.getD D5 false = true)
    (hD6 : s.pins.getD D6 false = true) (hD7 : s.pins.getD D7 false = true) :
    send s b m = (s, Event.setPin RS m ::
      ((if exists_ s RW then [Event.setPin RW false] else []) ++ cycle8 b)) := by
  have hRS2 := set_bound s RS m hRS
  have hupd : ∀ x, update s x = (s, cycle8 x) := fun x =>
    update8_eq s x hm hEN hD0 hD1 hD2 hD3 hD4 hD5 hD6 hD7
  by_cases hRW : s.pins.getD RW false
  · have hex : exists_ s RW = true := hRW
    have hRWb := set_bound s RW false hRW
    simp [send, seqStep, hRS2, hex, hRWb, hm, hupd]
  · have hex : exists_ s RW = false := by simpa [exists_] using hRW
    simp [send, seqStep, hRS2, hex, hm, hupd]

/-- On a four-bit state whose relevant pins are all bound, a command then a
command delay leaves the state unchanged and emits one command trace. -/
lemma cmd_step_eq (s : Lcd) (b : Nat) (hm : mode s = Mode.FourBits)
    (hRS : s.pins.getD RS false = true) (hEN : s.pins.getD EN false = true)
    (hD4 : s.pins.getD D4 false = true) (hD5 : s.pins.getD D5 false = true)
    (hD6 : s.pins.getD D6 false = true) (hD7 : s.pins.getD D7 false = true) :
    seqStep (command s b) (fun t => delay_us t CMD_DELAY) = (s, cmdTrace s b) := by
  simp only [command, cmdTrace]
  rw [send4_eq s b false hm hRS hEN hD4 hD5 hD6 hD7]
  rfl

/-- Bit absorption: when the mask has no overlap with the probed bit, masking
clears that bit regardless of the other operands. -/
lemma masked_bit_zero (x a m bbit : Nat) (h : m &&& bbit = 0) :
    ((x ||| a) &&& m) &&& bbit = 0 := by
  apply Nat.eq_of_testBit_eq
  intro i
  have h2 : (m &&& bbit).testBit i = Nat.testBit 0 i := by rw [h]
  simp only [Nat.testBit_land, Nat.zero_testBit] at h2
  cases hmi : m.testBit i <;> cases hbi : bbit.testBit i <;>
    simp_all [Nat.testBit_land, Nat.testBit_lor, Nat.zero_testBit]

/-- Row clamping of set_position equals the single min expression used in
the spec wording: row is clamped to one less than the smaller of the
configured line count and four. -/
lemma set_position_eq (s : Lcd) (col row : Nat) :
    set_position s col row =
      seqStep (command s (SetDDRAMAddr |||
        ((col + s.offsets.getD (min row (min (num_lines s) 4 - 1)) 0) % 256)))
        (fun t => delay_us t CMD_DELAY) := by
  have h14 : num_lines s = 4 ∨ num_lines s = 2 ∨ num_lines s = 1 := by
    unfold num_lines
    cases lines s <;> simp
  have hrow : (if (if row ≥ 4 then 4 - 1 else row) ≥ num_lines s then num_lines s - 1
      else (if row ≥ 4 then 4 - 1 else row)) = min row (min (num_lines s) 4 - 1) := by
    rcases h14 with h | h | h <;> rw [h] <;> split_ifs <;> omega
  simp only [set_position]
  rw [hrow]

/-- C1 (code_bug evidence): after build, the sticky error code is InvalidMode
both for the fully wired four-bit configuration and for the configuration
with only three of the four data pins bound, because validate sets the error
exactly when at least one required data pin is bound.  The claim, the doc
comment of validate, and the doc comment of error all expect None for the
wired display and a missing-pin variant for the three-pin display, so the
code contradicts its own documentation here. -/
theorem C1_code_bug_validate_inverted :
    error (build halfInit).1 = Error.InvalidMode
    ∧ error (build threePinInit).1 = Error.InvalidMode
    ∧ Error.InvalidMode ≠ Error.None
    ∧ Error.InvalidMode ≠ Error.NoPinD7 := by
  decide

/-- C2 counterexample: the fixed per-character delay used by write is not
greater than the command settle delay; the constants are 450 and 3500. -/
theorem C2_counterexample_chr_delay_not_greater :
    ¬ CMD_DELAY < CHR_DELAY := by
  decide

/-- C2 amended: write waits the fixed CHR_DELAY before every data send, and
CHR_DELAY (450 microseconds) is strictly smaller than CMD_DELAY (3500
microseconds), not larger as claimed. -/
theorem C2_amended_chr_delay_less :
    CHR_DELAY < CMD_DELAY
    ∧ ∀ (s : Lcd) (v : Nat),
        (write s v).2 = Event.delayUs CHR_DELAY :: (send s v true).2 :=
  ⟨by decide, fun _ _ => rfl⟩

/-- C3 counterexample: the delays of the eight-bit build trace are 50000,
4500, 150, then the five command settle delays.  The claimed pattern (a
delay of at least 4.5 ms after each of the first two function-set
transmissions) requires two delay events of at least 4500 microseconds after
the power-up delay, but the actual trace contains exactly one. -/
theorem C3_counterexample_eightbit_delays :
    delaysOf (build fullInit).2 = [50000, 4500, 150, 3500, 3500, 3500, 3500, 3500]
    ∧ ((delaysOf (build fullInit).2).drop 1).countP (fun d => decide (4500 ≤ d)) = 1 := by
  decide

/-- C3 amended: in four-bit mode build sends the raw nibble 0x03 three times
with delays 4500, 4500 and 150 microseconds and then nibble 0x02, exactly as
claimed; in eight-bit mode build sends the function-set command three times
with a delay of 4500 microseconds after the first and 150 microseconds after
the second, with no handshake delay after the third (the function-set commit
and the command delay follow immediately). -/
theorem C3_amended_init_handshake :
    (build halfInit).2 =
      [Event.delayUs 50000, Event.setPin RS false, Event.setPin EN false] ++
      cycle4 0x03 ++ [Event.delayUs 4500] ++
      cycle4 0x03 ++ [Event.delayUs 4500] ++
      cycle4 0x03 ++ [Event.delayUs 150] ++
      cycle4 0x02 ++
      (send halfInit (SetDisplayFunc ||| 0x00) false).2 ++ [Event.delayUs CMD_DELAY] ++
      (send halfInit (SetDisplayCtrl ||| 0x04) false).2 ++ [Event.delayUs CMD_DELAY] ++
      (send halfInit (SetDisplayMode ||| 0x02) false).2 ++ [Event.delayUs CMD_DELAY] ++
      (send halfInit ClearDisplay false).2 ++ [Event.delayUs CMD_DELAY] ++
      (send halfInit ReturnHome false).2 ++ [Event.delayUs CMD_DELAY]
    ∧ (build fullInit).2 =
      [Event.delayUs 50000, Event.setPin RS false, Event.setPin EN false] ++
      (send fullInit (SetDisplayFunc ||| 0x10) false).2 ++ [Event.delayUs 4500] ++
      (send fullInit (SetDisplayFunc ||| 0x10) false).2 ++ [Event.delayUs 150] ++
      (send fullInit (SetDisplayFunc ||| 0x10) false).2 ++
      (send fullInit (SetDisplayFunc ||| 0x10) false).2 ++ [Event.delayUs CMD_DELAY] ++
      (send fullInit (SetDisplayCtrl ||| 0x04) false).2 ++ [Event.delayUs CMD_DELAY] ++
      (send fullInit (SetDisplayMode ||| 0x02) false).2 ++ [Event.delayUs CMD_DELAY] ++
      (send fullInit ClearDisplay false).2 ++ [Event.delayUs CMD_DELAY] ++
      (send fullInit ReturnHome false).2 ++ [Event.delayUs CMD_DELAY] := by
  constructor <;> decide

/-- C4 counterexample: with_reliable_init performs I/O before build: on the
standard half-bus configuration it emits pin transitions (here the RS write
that starts its first display-control command). -/
theorem C4_counterexample_reliable_init_does_io :
    Event.setPin RS false ∈ (with_reliable_init halfInit 10000).2 := by
  decide

/-- C4 amended: every configuration-builder operation except
with_reliable_init emits no event at all; with_reliable_init toggles the
display off and on three times, emitting a display-control command after
each caller-specified delay. -/
theorem C4_amended_builder_pure_except_reliable_init :
    (∀ (s : Lcd) (c : Nat), (with_cols s c).2 = [])
    ∧ (∀ s : Lcd, (with_half_bus s).2 = [])
    ∧ (∀ s : Lcd, (with_full_bus s).2 = [])
    ∧ (∀ s : Lcd, (with_rw s).2 = [])
    ∧ (∀ (s : Lcd) (v : Size), (with_size s v).2 = [])
    ∧ (∀ (s : Lcd) (v : Lines), (with_lines s v).2 = [])
    ∧ (∀ (s : Lcd) (v : Layout), (with_layout s v).2 = [])
    ∧ (∀ (s : Lcd) (v : Display), (with_display s v).2 = [])
    ∧ (∀ (s : Lcd) (v : Cursor), (with_cursor s v).2 = [])
    ∧ (∀ (s : Lcd) (v : Blink), (with_blink s v).2 = [])
    ∧ (∀ s : Lcd, (with_backlight s).2 = [])
    ∧ (∀ (s : Lcd) (v : AutoScroll), (with_autoscroll s v).2 = [])
    ∧ (with_reliable_init halfInit 10000).2 =
        [Event.delayUs 10000] ++ (set_display halfInit Display.Off).2 ++
        [Event.delayUs 10000] ++ (set_display halfInitOff Display.On).2 ++
        [Event.delayUs 10000] ++ (set_display halfInit Display.Off).2 ++
        [Event.delayUs 10000] ++ (set_display halfInitOff Display.On).2 ++
        [Event.delayUs 10000] ++ (set_display halfInit Display.Off).2 ++
        [Event.delayUs 10000] ++ (set_display halfInitOff Display.On).2 := by
  refine ⟨fun _ _ => rfl, fun _ => rfl, fun _ => rfl, fun _ => rfl, fun _ _ => rfl,
    fun _ _ => rfl, fun _ _ => rfl, fun _ _ => rfl, fun _ _ => rfl, fun _ _ => rfl,
    fun _ => rfl, fun _ _ => rfl, by decide⟩

/-- C5: for a column count of at most 31 the row-offset table after
with_cols is [0x00, 0x40, c, 0x40 + c]; larger arguments clamp to 31; a
fresh instance carries the table for the default sixteen columns. -/
theorem C5_row_offset_table (c : Nat) :
    (c ≤ 31 → ((with_cols new c).1).offsets = [0x00, 0x40, c, 0x40 + c])
    ∧ (31 < c → ((with_cols new c).1).offsets = [0x00, 0x40, 31, 0x40 + 31])
    ∧ new.offsets = [0x00, 0x40, 0x10, 0x50] := by
  refine ⟨fun h => ?_, fun h => ?_, by decide⟩
  · have hc : min (max c 0) 31 = c := by omega
    simp [with_cols, new, hc, DEFAULT_COLS]
    omega
  · have hc : min (max c 0) 31 = 31 := by omega
    simp [with_cols, new, hc, DEFAULT_COLS]
    omega

/-- C5 witness: both hypotheses discharged at concrete column counts 20 and
40. -/
theorem C5_row_offset_table_witness :
    ((with_cols new 20).1).offsets = [0x00, 0x40, 20, 0x40 + 20]
    ∧ ((with_cols new 40).1).offsets = [0x00, 0x40, 31, 0x40 + 31] :=
  ⟨(C5_row_offset_table 20).1 (by decide), (C5_row_offset_table 40).2.1 (by decide)⟩

/-- C6: on a state whose required pins are bound, a four-bit send emits
exactly two update cycles after the RS (and optional RW) setup, the first
presenting the high nibble of the byte and the second its low nibble, while
an eight-bit send emits exactly one cycle presenting all eight bits. -/
theorem C6_send_update_cycles (s : Lcd) (b : Nat) (m : Bool) (hb : b < 256)
    (hRS : s.pins.getD RS false = true) (hEN : s.pins.getD EN false = true)
    (hD4 : s.pins.getD D4 false = true) (hD5 : s.pins.getD D5 false = true)
    (hD6 : s.pins.getD D6 false = true) (hD7 : s.pins.getD D7 false = true) :
    (mode s = Mode.FourBits →
      (send s b m).2 = Event.setPin RS m ::
        ((if exists_ s RW then [Event.setPin RW false] else []) ++
          (cycle4 (b >>> 4) ++ cycle4 (b &&& 0x0F))))
    ∧ (mode s = Mode.EightBits →
        s.pins.getD D0 false = true → s.pins.getD D1 false = true →
        s.pins.getD D2 false = true → s.pins.getD D3 false = true →
        (send s b m).2 = Event.setPin RS m ::
          ((if exists_ s RW then [Event.setPin RW false] else []) ++ cycle8 b)) := by
  constructor
  · intro hm
    have hmask : ∀ x, x < 256 → cycle4 x = cycle4 (x &&& 0x0F) := by decide
    rw [send4_eq s b m hm hRS hEN hD4 hD5 hD6 hD7, ← hmask b hb]
  · intro hm hD0 hD1 hD2 hD3
    rw [send8_eq s b m hm hRS hEN hD0 hD1 hD2 hD3 hD4 hD5 hD6 hD7]

/-- C6 witness: the theorem applied to the half-bus and full-bus default
states with the byte 72, all hypotheses discharged. -/
theorem C6_send_update_cycles_witness :
    (send halfInit 72 true).2 = Event.setPin RS true :: (cycle4 4 ++ cycle4 8)
    ∧ (send fullInit 72 true).2 = Event.setPin RS true :: cycle8 72 :=
  ⟨(C6_send_update_cycles halfInit 72 true (by decide) rfl rfl rfl rfl rfl rfl).1 rfl,
   (C6_send_update_cycles fullInit 72 true (by decide) rfl rfl rfl rfl rfl rfl).2
     rfl rfl rfl rfl rfl⟩

/-- C7: set_position clamps the row to one less than the smaller of the
configured line count and four, then issues exactly one set-DDRAM-address
command whose payload is the clamped row offset plus the column, ORed with
the 0x80 opcode, followed by the command delay.  The hypothesis rules out
u8 overflow of the addition (the overflowing case is claim C10). -/
theorem C7_set_position_command (s : Lcd) (col row : Nat)
    (h : col + s.offsets.getD (min row (min (num_lines s) 4 - 1)) 0 < 256) :
    (set_position s col row).2 =
      (send s (SetDDRAMAddr |||
        (s.offsets.getD (min row (min (num_lines s) 4 - 1)) 0 + col)) false).2
        ++ [Event.delayUs CMD_DELAY] := by
  rw [set_position_eq, Nat.mod_eq_of_lt h,
    Nat.add_comm col (s.offsets.getD (min row (min (num_lines s) 4 - 1)) 0)]
  rfl

/-- C7 witness: set_position 8 0 on the default sixteen-column half-bus
state issues the command byte 0x88. -/
theorem C7_set_position_command_witness :
    (set_position halfInit 8 0).2 =
      (send halfInit 0x88 false).2 ++ [Event.delayUs CMD_DELAY] :=
  C7_set_position_command halfInit 8 0 (by decide)

/-- C8: with_lines followed by lines round-trips all three line-count
values on a fresh builder, distinguishing FourLines (0x0C) from TwoLines
(0x08) even though FourLines reuses the character-size bit position. -/
theorem C8_lines_round_trip :
    lines (with_lines new Lines.FourLines).1 = Lines.FourLines
    ∧ lines (with_lines new Lines.TwoLines).1 = Lines.TwoLines
    ∧ lines (with_lines new Lines.OneLine).1 = Lines.OneLine
    ∧ Lines.val Lines.FourLines = 0x0C
    ∧ Lines.val Lines.TwoLines = 0x08 := by
  decide

/-- C9 counterexample: on the freshly built default display the display bit
starts On, and calling set_display with On and then Off leaves it Off, so
the on-then-off pair does not restore the register bit to its value before
the first call. -/
theorem C9_counterexample_display_toggle_not_restored :
    display (build halfInit).1 = Display.On
    ∧ display ((set_display ((set_display (build halfInit).1 Display.On).1)
        Display.Off).1) = Display.Off
    ∧ Display.Off ≠ Display.On := by
  decide

/-- C9 amended: for each of the four runtime toggles, the On call sets the
flag bit and issues exactly one command carrying the whole register ORed
with its opcode, the following Off call clears the bit and issues exactly
one more command, and after the pair the affected bit is clear - so the
pre-toggle value is restored precisely when the bit was clear before the
first call (which holds for blink, cursor and autoscroll in the default
configuration, but not for display, whose default is on). -/
theorem C9_amended_toggle_pairs (s : Lcd) (hm : mode s = Mode.FourBits)
    (hRS : s.pins.getD RS false = true) (hEN : s.pins.getD EN false = true)
    (hD4 : s.pins.getD D4 false = true) (hD5 : s.pins.getD D5 false = true)
    (hD6 : s.pins.getD D6 false = true) (hD7 : s.pins.getD D7 false = true) :
    (set_blink s Blink.On =
        ({ s with display_ctrl := s.display_ctrl ||| 0x01 },
          cmdTrace { s with display_ctrl := s.display_ctrl ||| 0x01 }
            (SetDisplayCtrl ||| (s.display_ctrl ||| 0x01)))
      ∧ set_blink { s with display_ctrl := s.display_ctrl ||| 0x01 } Blink.Off =
        ({ s with display_ctrl := (s.display_ctrl ||| 0x01) &&& (0xFF ^^^ 0x01) },
          cmdTrace { s with display_ctrl := (s.display_ctrl ||| 0x01) &&& (0xFF ^^^ 0x01) }
            (SetDisplayCtrl ||| ((s.display_ctrl ||| 0x01) &&& (0xFF ^^^ 0x01))))
      ∧ ((s.display_ctrl ||| 0x01) &&& (0xFF ^^^ 0x01)) &&& 0x01 = 0)
    ∧ (set_cursor s Cursor.On =
        ({ s with display_ctrl := s.display_ctrl ||| 0x02 },
          cmdTrace { s with display_ctrl := s.display_ctrl ||| 0x02 }
            (SetDisplayCtrl ||| (s.display_ctrl ||| 0x02)))
      ∧ set_cursor { s with display_ctrl := s.display_ctrl ||| 0x02 } Cursor.Off =
        ({ s with display_ctrl := (s.display_ctrl ||| 0x02) &&& (0xFF ^^^ 0x02) },
          cmdTrace { s with display_ctrl := (s.display_ctrl ||| 0x02) &&& (0xFF ^^^ 0x02) }
            (SetDisplayCtrl ||| ((s.display_ctrl ||| 0x02) &&& (0xFF ^^^ 0x02))))
      ∧ ((s.display_ctrl ||| 0x02) &&& (0xFF ^^^ 0x02)) &&& 0x02 = 0)
    ∧ (set_display s Display.On =
        ({ s with display_ctrl := s.display_ctrl ||| 0x04 },
          cmdTrace { s with display_ctrl := s.display_ctrl ||| 0x04 }
            (SetDisplayCtrl ||| (s.display_ctrl ||| 0x04)))
      ∧ set_display { s with display_ctrl := s.display_ctrl ||| 0x04 } Display.Off =
        ({ s with display_ctrl := (s.display_ctrl ||| 0x04) &&& (0xFF ^^^ 0x04) },
          cmdTrace { s with display_ctrl := (s.display_ctrl ||| 0x04) &&& (0xFF ^^^ 0x04) }
            (SetDisplayCtrl ||| ((s.display_ctrl ||| 0x04) &&& (0xFF ^^^ 0x04))))
      ∧ ((s.display_ctrl ||| 0x04) &&& (0xFF ^^^ 0x04)) &&& 0x04 = 0)
    ∧ (set_autoscroll s AutoScroll.On =
        ({ s with display_mode := s.display_mode ||| 0x01 },
          cmdTrace { s with display_mode := s.display_mode ||| 0x01 }
            (SetDisplayMode ||| (s.display_mode ||| 0x01)))
      ∧ set_autoscroll { s with display_mode := s.display_mode ||| 0x01 } AutoScroll.Off =
        ({ s with display_mode := (s.display_mode ||| 0x01) &&& (0xFF ^^^ 0x01) },
          cmdTrace { s with display_mode := (s.display_mode ||| 0x01) &&& (0xFF ^^^ 0x01) }
            (SetDisplayMode ||| ((s.display_mode ||| 0x01) &&& (0xFF ^^^ 0x01))))
      ∧ ((s.display_mode ||| 0x01) &&& (0xFF ^^^ 0x01)) &&& 0x01 = 0) := by
  refine ⟨⟨?_, ?_, masked_bit_zero _ _ _ _ (by decide)⟩,
    ⟨?_, ?_, masked_bit_zero _ _ _ _ (by decide)⟩,
    ⟨?_, ?_, masked_bit_zero _ _ _ _ (by decide)⟩,
    ⟨?_, ?_, masked_bit_zero _ _ _ _ (by decide)⟩⟩ <;>
  exact cmd_step_eq _ _ hm hRS hEN hD4 hD5 hD6 hD7

/-- C9 witness: the blink pair instantiated on the half-bus default state,
all hypotheses discharged. -/
theorem C9_amended_toggle_pairs_witness :
    set_blink halfInit Blink.On =
      ({ halfInit with display_ctrl := halfInit.display_ctrl ||| 0x01 },
        cmdTrace { halfInit with display_ctrl := halfInit.display_ctrl ||| 0x01 }
          (SetDisplayCtrl ||| (halfInit.display_ctrl ||| 0x01))) :=
  (C9_amended_toggle_pairs halfInit rfl rfl rfl rfl rfl rfl rfl).1.1

/-- C10: set_position computes its payload in wrapping eight-bit
arithmetic: for every state, column and row the issued command byte is the
0x80 opcode ORed with the sum of the column and the clamped row offset
reduced mod 256.  On the sixteen-column two-line state, set_position 200 1
wraps (200 + 0x40 = 0x108) and produces exactly the same trace as
set_position 8 0, aliasing a different screen position. -/
theorem C10_set_position_wrapping :
    (∀ (s : Lcd) (col row : Nat),
      (set_position s col row).2 =
        (send s (SetDDRAMAddr |||
          ((col + s.offsets.getD (min row (min (num_lines s) 4 - 1)) 0) % 256)) false).2
          ++ [Event.delayUs CMD_DELAY])
    ∧ (set_position twoLineInit 200 1).2 = (set_position twoLineInit 8 0).2 := by
  constructor
  · intro s col row
    rw [set_position_eq]
    rfl
  · decide

end AgLcd
